import Mathlib

/-!
Shallow embedding of the dev_connector Express route handlers
(`src/routes/api/users.js` — user registration and the posts router —
and `src/routes/api/profile.js`), together with theorems settling the
stated claims about them.

Mongoose documents are embedded as Lean structures, the MongoDB
collections as Lean lists, and each route handler as a pure function
from the fetched document(s) and request data to the HTTP response it
sends plus the saved document state.  JavaScript array/string
operations used by the handlers (`indexOf`, `splice`, array-to-number
coercion) are embedded with their ECMAScript semantics.
-/

namespace DevConnector

/-! ## JavaScript primitives -/

/-- Does `pat` occur at the head of `s`? (helper for `String.prototype.indexOf`). -/
def listStartsWith : List Char → List Char → Bool
  | [], _ => true
  | _ :: _, [] => false
  | p :: ps, c :: cs => p == c && listStartsWith ps cs

/-- First position (as `Option`) where `pat` occurs as a contiguous substring. -/
def strFindPos (pat : List Char) : List Char → Option Nat
  | [] => if listStartsWith pat [] then some 0 else none
  | c :: cs =>
    if listStartsWith pat (c :: cs) then some 0
    else (strFindPos pat cs).map (· + 1)

/-- Embedding of `String.prototype.indexOf`: the first index where `pat` occurs as a
substring of `s`, and `-1` when it does not occur. -/
def jsStrIndexOf (s pat : String) : Int :=
  match strFindPos pat.data s.data with
  | some n => (n : Int)
  | none => -1

/-- First position of `x` in `l` under `==` (helper for `Array.prototype.indexOf`). -/
def arrFindPos [BEq α] (x : α) : List α → Option Nat
  | [] => none
  | y :: t => if y == x then some 0 else (arrFindPos x t).map (· + 1)

/-- Embedding of `Array.prototype.indexOf`: the first index whose element equals `x`,
and `-1` when there is none. -/
def jsArrIndexOf [BEq α] (l : List α) (x : α) : Int :=
  match arrFindPos x l with
  | some n => (n : Int)
  | none => -1

/-- ECMAScript coercion of an Array of integers to an integer index, as
performed when an Array is passed where `splice` expects a number:
`ToIntegerOrInfinity(ToNumber(array))`.  `ToNumber` goes through the
Array's string form (elements joined by `","`): `[]` gives `""` hence `0`,
`[x]` gives the numeral of `x`, and two or more elements give a string
containing `","`, which parses as `NaN`; `ToIntegerOrInfinity(NaN) = 0`. -/
def jsArrayToInteger : List Int → Int
  | [] => 0
  | [x] => x
  | _ :: _ :: _ => 0

/-- Embedding of `Array.prototype.splice(start, 1)`: a negative `start` counts from the
end (clamped at 0), a nonnegative one is clamped at the length; one element
at the resulting position is removed (none if the position is past the end). -/
def jsSplice1 (l : List α) (start : Int) : List α :=
  let len := l.length
  let s : Nat := if start < 0 then ((len : Int) + start).toNat else min start.toNat len
  l.take s ++ l.drop (s + 1)

/-- JavaScript truthiness of a possibly-absent string field:
`undefined` and `""` are falsy, every other string truthy. -/
def jsTruthy : Option String → Bool
  | none => false
  | some s => !(s == "")

/-! ## Data model (`modals/Post`, `modals/User`) -/

/-- A like sub-document: `{ user: ObjectId }`. -/
structure Like where
  user : String
  deriving DecidableEq

/-- A comment sub-document: `{ text, name, avatar, user }` plus its own `_id`. -/
structure Comment where
  id : String
  text : String
  name : String
  avatar : String
  user : String
  deriving DecidableEq

/-- A post document. -/
structure Post where
  id : String
  user : String
  text : String
  name : String
  avatar : String
  likes : List Like
  comments : List Comment
  deriving DecidableEq

/-- A user document (password stores the bcrypt hash). -/
structure UserDoc where
  id : String
  name : String
  email : String
  password : String
  avatar : String
  deriving DecidableEq

/-- An HTTP response: status code plus the message of its JSON body
(`""` when the handler returns a data payload instead of a message). -/
structure Resp where
  status : Nat
  msg : String
  deriving DecidableEq

/-! ## Posts router handlers (second router in `src/routes/api/users.js`) -/

/-- Handler body of `PUT api/posts/like/:id`, given the fetched post: rejects with
400 `"Post already liked"` when the requester already has a like entry,
otherwise `unshift`s a `{ user: req.user.id }` entry and saves. -/
def likeHandler (post : Post) (uid : String) : Resp × Post :=
  if (post.likes.filter (fun like => like.user == uid)).length > 0 then
    (⟨400, "Post already liked"⟩, post)
  else
    (⟨200, ""⟩, { post with likes := ⟨uid⟩ :: post.likes })

/-- Handler body of `PUT api/posts/unlike/:id`, given the fetched post: rejects with
400 when the requester has no like entry; otherwise computes
`removeIndex = post.likes.map(like => like.user.toString().indexOf(req.user.id))`
— an Array, since the closure returns the nested `indexOf` — and passes it
to `splice`, which coerces the Array to an integer. -/
def unlikeHandler (post : Post) (uid : String) : Resp × Post :=
  if (post.likes.filter (fun like => like.user == uid)).length == 0 then
    (⟨400, "Post has not yet been liked"⟩, post)
  else
    let removeIndex : List Int := post.likes.map (fun like => jsStrIndexOf like.user uid)
    (⟨200, ""⟩, { post with likes := jsSplice1 post.likes (jsArrayToInteger removeIndex) })

/-- Fetch step (`Post.findById`) of the like route followed by the handler body: a
missing post makes `post.likes` a property access on `null`, which throws
a `TypeError` that the `catch` maps to 500 `"Server Error"`. -/
def likeRoute (fetched : Option Post) (uid : String) : Resp × Option Post :=
  match fetched with
  | none => (⟨500, "Server Error"⟩, none)
  | some post => let r := likeHandler post uid; (r.1, some r.2)

/-- Fetch step (`Post.findById`) of the unlike route followed by the handler body; a
missing post throws on `post.likes` and the `catch` answers 500. -/
def unlikeRoute (fetched : Option Post) (uid : String) : Resp × Option Post :=
  match fetched with
  | none => (⟨500, "Server Error"⟩, none)
  | some post => let r := unlikeHandler post uid; (r.1, some r.2)

/-- Embedding of the regex test `/^[0-9a-fA-F]\x7b24\x7d$/` — the well-formedness test on `req.params.id`
of the delete-post route. -/
def objectIdWellFormed (s : String) : Bool :=
  s.length == 24 && s.data.all fun c =>
    (decide ('0' ≤ c) && decide (c ≤ '9')) || (decide ('a' ≤ c) && decide (c ≤ 'f'))
      || (decide ('A' ≤ c) && decide (c ≤ 'F'))

/-- Handler of `DELETE api/posts/:id` against the posts collection: 404 when the id
is malformed or matches no post, 401 when the requester is not the post's
author, otherwise `post.remove()` deletes the fetched document. -/
def deletePostHandler (db : List Post) (pid uid : String) : Resp × List Post :=
  if !(objectIdWellFormed pid) then (⟨404, "Post not found"⟩, db)
  else
    match db.find? (fun p => p.id == pid) with
    | none => (⟨404, "Post not found"⟩, db)
    | some post =>
      if !(post.user == uid) then (⟨401, "user not authorized"⟩, db)
      else (⟨200, "Post Removed"⟩, db.eraseP (fun p => p.id == pid))

/-- Handler body of `DELETE api/posts/comment/:id/:comment_id`, given the fetched
post: finds the comment by its id (404 when absent), requires the
requester to be its author (401 otherwise), then removes the comment at
`post.comments.map(c => c.user.toString()).indexOf(req.user.id)` — the
position of the first comment whose author is the requester. -/
def deleteCommentHandler (post : Post) (uid cid : String) : Resp × Post :=
  match post.comments.find? (fun c => c.id == cid) with
  | none => (⟨404, "Comment doesn't exists"⟩, post)
  | some comment =>
    if !(comment.user == uid) then (⟨401, "User not authorized"⟩, post)
    else
      let removeIndex := jsArrIndexOf (post.comments.map (fun c => c.user)) uid
      (⟨200, ""⟩, { post with comments := jsSplice1 post.comments removeIndex })

/-! ## User registration (`POST api/users`, first router in `src/routes/api/users.js`) -/

/-- Registration response after validation has passed: either the 400
`"User already exists"` error body or the signed token returned as JSON. -/
inductive RegResp where
  | badRequest (msg : String)
  | token (t : String)
  deriving DecidableEq

/-- Handler body of `POST api/users` (after express-validator has accepted
name/email/password): `User.findOne({ email })` — when a user with that
email exists, return 400 `"User already exists"` before any user object is
built or saved; otherwise build the user (gravatar-derived avatar,
bcrypt-hashed password), save it, and answer with the token signed over
the payload `{ user: { id } }`.  The external gravatar, bcrypt and jwt
calls are parameters; `freshId` is the id MongoDB assigns the saved
document. -/
def registerHandler (gravatarUrl hashPw signJwt : String → String) (freshId : String)
    (db : List UserDoc) (name email password : String) : RegResp × List UserDoc :=
  match db.find? (fun u => u.email == email) with
  | some _ => (.badRequest "User already exists", db)
  | none =>
    let user : UserDoc :=
      { id := freshId, name := name, email := email,
        password := hashPw password, avatar := gravatarUrl email }
    (.token (signJwt user.id), db ++ [user])

/-! ## Profile data model (`modals/Profile`) -/

/-- An experience sub-document with its own `_id` (`from`/`to` are embedded
as `fromDate`/`toDate` since `from` is a Lean keyword). -/
structure Experience where
  id : String
  title : String
  company : String
  location : String
  fromDate : String
  toDate : String
  current : Bool
  description : String
  deriving DecidableEq

/-- An education sub-document with its own `_id`. -/
structure Education where
  id : String
  school : String
  degree : String
  fieldofstudy : String
  fromDate : String
  toDate : String
  current : Bool
  description : String
  deriving DecidableEq

/-- The embedded `social` object of a profile; `none` means the key is absent. -/
structure Social where
  youtube : Option String
  twitter : Option String
  facebook : Option String
  linkedin : Option String
  instagram : Option String
  deriving DecidableEq

/-- A profile document; optional scalar fields are `none` when unset. -/
structure ProfileDoc where
  user : String
  company : Option String
  website : Option String
  location : Option String
  bio : Option String
  status : Option String
  githubusername : Option String
  skills : Option (List String)
  social : Social
  experience : List Experience
  education : List Education
  deriving DecidableEq

/-- The request body of `POST api/profile` as destructured by the handler;
`none` stands for an absent (`undefined`) field. -/
structure ProfileBody where
  company : Option String
  website : Option String
  location : Option String
  bio : Option String
  status : Option String
  githubusername : Option String
  skills : Option String
  youtube : Option String
  facebook : Option String
  twitter : Option String
  instagram : Option String
  linkedin : Option String
  deriving DecidableEq

/-- The `profileFields` object built by `POST api/profile`: a scalar key is
present (`some`) exactly when the body field is truthy; `skills` is split
on `","` with each part trimmed; the `social` sub-object is always created
and is part of the update. -/
structure ProfileFields where
  user : String
  company : Option String
  website : Option String
  location : Option String
  bio : Option String
  status : Option String
  githubusername : Option String
  skills : Option (List String)
  social : Social
  deriving DecidableEq

/-- Keep the body value when truthy, otherwise leave the key absent. -/
def fieldIfTruthy (v : Option String) : Option String :=
  if jsTruthy v then v else none

/-- Construction of the `profileFields` object in `POST api/profile` (lines 64-84). -/
def buildProfileFields (uid : String) (b : ProfileBody) : ProfileFields :=
  { user := uid
    company := fieldIfTruthy b.company
    website := fieldIfTruthy b.website
    location := fieldIfTruthy b.location
    bio := fieldIfTruthy b.bio
    status := fieldIfTruthy b.status
    githubusername := fieldIfTruthy b.githubusername
    skills :=
      match b.skills with
      | none => none
      | some s => if s == "" then none else some ((s.splitOn ",").map (fun skill => skill.trim))
    social :=
      { youtube := fieldIfTruthy b.youtube
        twitter := fieldIfTruthy b.twitter
        facebook := fieldIfTruthy b.facebook
        linkedin := fieldIfTruthy b.linkedin
        instagram := fieldIfTruthy b.instagram } }

/-- MongoDB `findOneAndUpdate` with `{ $set: profileFields }`: every key
present in `profileFields` overwrites the stored value, absent keys keep
theirs.  `user` and `social` are always present in `profileFields`, so
`social` is replaced wholesale. -/
def applySet (p : ProfileDoc) (f : ProfileFields) : ProfileDoc :=
  { user := f.user
    company := f.company.or p.company
    website := f.website.or p.website
    location := f.location.or p.location
    bio := f.bio.or p.bio
    status := f.status.or p.status
    githubusername := f.githubusername.or p.githubusername
    skills := f.skills.or p.skills
    social := f.social
    experience := p.experience
    education := p.education }

/-- Handler of `POST api/profile` on a user who already has a profile: build
`profileFields` from the body and `$set` it into the stored document. -/
def updateProfileHandler (p : ProfileDoc) (uid : String) (b : ProfileBody) : ProfileDoc :=
  applySet p (buildProfileFields uid b)

/-- Handler body of `DELETE api/profile/experience/:exp_id`, given the fetched
profile: `removeIndex` is the position of `exp_id` among the experience
ids (`-1` when absent), and `splice(removeIndex, 1)` mutates the list. -/
def deleteExperienceHandler (p : ProfileDoc) (expId : String) : Resp × ProfileDoc :=
  let removeIndex := jsArrIndexOf (p.experience.map (fun item => item.id)) expId
  (⟨200, ""⟩, { p with experience := jsSplice1 p.experience removeIndex })

/-- Handler body of `DELETE api/profile/education/:edu_id`, same shape as the
experience removal. -/
def deleteEducationHandler (p : ProfileDoc) (eduId : String) : Resp × ProfileDoc :=
  let removeIndex := jsArrIndexOf (p.education.map (fun item => item.id)) eduId
  (⟨200, ""⟩, { p with education := jsSplice1 p.education removeIndex })

/-! ## `GET api/profile/me` -/

/-- Outcome of a request: a response was sent, the profile was returned
as JSON, or the handler threw without sending anything. -/
inductive MeOutcome where
  | sent (r : Resp)
  | okJson (p : ProfileDoc)
  | threw
  deriving DecidableEq

/-- Variable lookup in a lexical environment (innermost binding first). -/
def lookupVar (env : List (String × String)) (x : String) : Option String :=
  (env.find? (fun b => b.1 == x)).map (fun b => b.2)

/-- The `catch (error)` block of `GET api/profile/me`:
`console.error(err.message); res.status(500).send("Server Error");`.
The only binding in scope is `error`, so evaluating the identifier `err`
throws a `ReferenceError` and the block produces no response when the
lookup fails; the 500 would be sent only if `err` resolved. -/
def meCatchBlock (caught : String) : Option Resp :=
  let env := [("error", caught)]
  match lookupVar env "err" with
  | none => none
  | some _ => some ⟨500, "Server Error"⟩

/-- Handler of `GET api/profile/me`: the `Profile.findOne` result is either a thrown
error (`Except.error`) or an optional profile; no profile gives the 400
body, a profile is returned as JSON, and a throw lands in the `catch`
block. -/
def getMeHandler (fetched : Except String (Option ProfileDoc)) : MeOutcome :=
  match fetched with
  | .ok none => .sent ⟨400, "There is no profile for this user"⟩
  | .ok (some p) => .okJson p
  | .error e =>
    match meCatchBlock e with
    | some r => .sent r
    | none => .threw

/-! ## `GET api/profile/github/:username` -/

/-- The upstream request URI built by the handler. -/
def githubUri (username clientId clientSecret : String) : String :=
  "https://api.github.com/users/" ++ username ++
    "/repos?per_page=5&sort=created:asc&client_id=" ++ clientId ++
    "&client_secret=" ++ clientSecret

/-- What the `request` library hands the callback: a network-level error
(`none` when absent) and, unless the request failed, the response's status
code and body. -/
structure NetResult where
  error : Option String
  response : Option (Nat × String)
  deriving DecidableEq

/-- Outcome of the github route: a response was sent, or the callback
threw without sending one. -/
inductive GithubOutcome where
  | sent (status : Nat) (body : String)
  | threw
  deriving DecidableEq

/-- The `request` callback of `GET api/profile/github/:username`: a
network error is only `console.error`-logged (no `return`), then
`response.statusCode` is read — a throw when `response` is `undefined` —
a non-200 status is answered with 400 `"No Github profile found"`, and a
200 status with the parsed body.  Returns the outcome and the log. -/
def githubCallback (r : NetResult) : GithubOutcome × List String :=
  let log := match r.error with | some e => [e] | none => []
  match r.response with
  | none => (.threw, log)
  | some (status, body) =>
    if !(status == 200) then (.sent 400 "No Github profile found", log)
    else (.sent 200 body, log)

/-! ## Derived notions and concrete documents used in the theorems -/

/-- Number of like entries a given user holds on a post. -/
def countLikes (post : Post) (uid : String) : Nat :=
  (post.likes.filter (fun like => like.user == uid)).length

/-- Iterated like requests by the same user (saved state after each). -/
def likeSeq (post : Post) (uid : String) : Nat → Post
  | 0 => post
  | n + 1 => (likeHandler (likeSeq post uid n) uid).2

/-- A post liked first by user `a` and then by user `b`: like entries are
prepended, so the stored order is `[b, a]`, with `b`'s entry at index 0. -/
def postLikedByAThenB : Post :=
  { id := "p1", user := "b", text := "hello", name := "B", avatar := "gb",
    likes := [{ user := "b" }, { user := "a" }], comments := [] }

/-- A sample experience entry. -/
def expEntry (i : String) : Experience :=
  { id := i, title := "dev", company := "acme", location := "x",
    fromDate := "2020-01-01", toDate := "2021-01-01", current := false, description := "d" }

/-- A sample education entry. -/
def eduEntry (i : String) : Education :=
  { id := i, school := "u", degree := "bs", fieldofstudy := "cs",
    fromDate := "2015-01-01", toDate := "2019-01-01", current := false, description := "d" }

/-- An otherwise-empty profile document. -/
def emptyProfile : ProfileDoc :=
  { user := "u1", company := none, website := none, location := none, bio := none,
    status := none, githubusername := none, skills := none,
    social := ⟨none, none, none, none, none⟩, experience := [], education := [] }

/-- A profile holding exactly one experience entry, with id `"e1"`. -/
def profileOneExp : ProfileDoc :=
  { emptyProfile with experience := [expEntry "e1"] }

/-- A profile holding two experience entries `"e1"`, `"e2"` and two
education entries `"d1"`, `"d2"` (in that stored order). -/
def profileTwoExpEdu : ProfileDoc :=
  { emptyProfile with
      experience := [expEntry "e1", expEntry "e2"]
      education := [eduEntry "d1", eduEntry "d2"] }

/-- A profile with a bio and one social link set. -/
def profileWithBioAndYoutube : ProfileDoc :=
  { emptyProfile with
      bio := some "my bio"
      status := some "old status"
      social := { youtube := some "https://youtube.example/c", twitter := none,
                  facebook := none, linkedin := none, instagram := none } }

/-- A request body carrying only `status` and `skills`. -/
def bodyStatusSkillsOnly : ProfileBody :=
  { company := none, website := none, location := none, bio := none,
    status := some "Developer", githubusername := none, skills := some "js,go",
    youtube := none, facebook := none, twitter := none, instagram := none, linkedin := none }

/-- A post on which user `"u"` wrote two comments (ids `"a1"` and `"a2"`,
stored in that order). -/
def postTwoCommentsByU : Post :=
  { id := "p2", user := "w", text := "t", name := "W", avatar := "gw", likes := [],
    comments :=
      [{ id := "a1", text := "first", name := "U", avatar := "gu", user := "u" },
       { id := "a2", text := "second", name := "U", avatar := "gu", user := "u" }] }

/-- A registered user with email `"a@x.com"`. -/
def userAX : UserDoc :=
  { id := "u1", name := "A", email := "a@x.com", password := "h", avatar := "g" }

/-- A well-formed ObjectId string (24 hex characters). -/
def hexId24 : String := "0123456789abcdef01234567"

/-- A post stored under `hexId24` and authored by `"author"`. -/
def postByAuthor : Post :=
  { id := hexId24, user := "author", text := "t", name := "A", avatar := "g",
    likes := [], comments := [] }

/-! ## Lemmas about the JavaScript primitives -/

theorem arrFindPos_eq_none_iff [BEq α] [LawfulBEq α] {x : α} {l : List α} :
    arrFindPos x l = none ↔ x ∉ l := by
  induction l with
  | nil => simp [arrFindPos]
  | cons y t ih =>
    by_cases h : y == x
    · have hyx : y = x := eq_of_beq h
      subst hyx
      simp [arrFindPos, h]
    · have hne : ¬ x = y := fun he => h (by simp [he])
      simp [arrFindPos, h, ih, hne]

theorem arrFindPos_map_split [BEq β] [LawfulBEq β] (f : α → β) (x : β) {l : List α} {n : Nat}
    (h : arrFindPos x (l.map f) = some n) :
    ∃ pre c suf, l = pre ++ c :: suf ∧ pre.length = n ∧ f c = x ∧ ∀ b ∈ pre, f b ≠ x := by
  induction l generalizing n with
  | nil => simp [arrFindPos] at h
  | cons y t ih =>
    rw [List.map_cons, arrFindPos] at h
    by_cases hy : f y == x
    · rw [if_pos hy] at h
      obtain rfl : (0 : Nat) = n := by simpa using h
      exact ⟨[], y, t, rfl, rfl, eq_of_beq hy, by simp⟩
    · rw [if_neg hy] at h
      obtain ⟨m, hm, rfl⟩ := Option.map_eq_some'.mp h
      obtain ⟨pre, c, suf, hl, hlen, hfc, hpre⟩ := ih hm
      refine ⟨y :: pre, c, suf, by simp [hl], by simp [hlen], hfc, ?_⟩
      intro b hb
      rcases List.mem_cons.mp hb with rfl | hb
      · exact fun he => hy (by simp [he])
      · exact hpre b hb

theorem arrFindPos_map_isSome [BEq β] [LawfulBEq β] (f : α → β) {x : β} {l : List α}
    (h : x ∈ l.map f) : (arrFindPos x (l.map f)).isSome := by
  rw [Option.isSome_iff_ne_none]
  intro hn
  exact arrFindPos_eq_none_iff.mp hn h

theorem jsArrIndexOf_eq_neg_one [BEq α] [LawfulBEq α] {l : List α} {x : α} (h : x ∉ l) :
    jsArrIndexOf l x = -1 := by
  rw [jsArrIndexOf, arrFindPos_eq_none_iff.mpr h]

theorem jsSplice1_neg_one (l : List α) : jsSplice1 l (-1) = l.dropLast := by
  cases l with
  | nil => rfl
  | cons a t =>
    have hs : (((a :: t).length : Int) + (-1)).toNat = t.length := by
      simp [List.length_cons]
    simp only [jsSplice1, if_pos (show (-1 : Int) < 0 by decide), hs]
    rw [show t.length + 1 = (a :: t).length from by simp, List.drop_length, List.append_nil,
      List.dropLast_eq_take]
    simp

theorem jsSplice1_append (pre suf : List α) (c : α) :
    jsSplice1 (pre ++ c :: suf) ((pre.length : Nat) : Int) = pre ++ suf := by
  have hneg : ¬ ((pre.length : Int) < 0) := by
    simp
  have htn : ((pre.length : Int)).toNat = pre.length := Int.toNat_natCast _
  have hle : pre.length ≤ (pre ++ c :: suf).length := by
    simp [List.length_append]
  simp only [jsSplice1, if_neg hneg, htn, Nat.min_eq_left hle]
  have hdecomp : pre ++ c :: suf = (pre ++ [c]) ++ suf := by simp
  rw [List.take_left' rfl, hdecomp, List.drop_left' (by simp [List.length_append])]

theorem jsArrIndexOf_eq_of_pos [BEq α] {l : List α} {x : α} {n : Nat}
    (h : arrFindPos x l = some n) : jsArrIndexOf l x = (n : Int) := by
  rw [jsArrIndexOf, h]

theorem countLikes_likeHandler (post : Post) (uid : String) :
    countLikes (likeHandler post uid).2 uid = max 1 (countLikes post uid) := by
  by_cases h : (post.likes.filter (fun like => like.user == uid)).length > 0
  · have hc : countLikes post uid = (post.likes.filter (fun like => like.user == uid)).length :=
      rfl
    simp only [likeHandler, if_pos h]
    omega
  · have h0 : countLikes post uid = 0 := by
      have : (post.likes.filter (fun like => like.user == uid)).length = 0 := by omega
      simpa [countLikes] using this
    simp only [likeHandler, if_neg h]
    have : countLikes { post with likes := ⟨uid⟩ :: post.likes } uid
        = countLikes post uid + 1 := by
      simp [countLikes, List.filter_cons]
    rw [this, h0]
    decide

theorem fieldIfTruthy_or (v old : Option String) :
    (fieldIfTruthy v).or old = if jsTruthy v then v else old := by
  by_cases h : jsTruthy v
  · cases v with
    | none => simp [jsTruthy] at h
    | some s => simp [fieldIfTruthy, h]
  · simp [fieldIfTruthy, h]

/-! ## Claims -/

/-- C1: the unlike handler does not remove the requesting user's like
entry once other users' likes are present.  On the post whose likes are
stored as `[b, a]` (user `a` liked first, then user `b`), user `a`'s
unlike request passes the 400 guard, but `removeIndex` evaluates to the
Array `[-1, 0]`, which `splice` coerces to `0`, so the entry removed is
`b`'s like at index 0: user `a`'s like survives and `b`'s is lost.  The
handler answers 200 with the mutated list. -/
theorem unlike_removes_another_users_like :
    (unlikeHandler postLikedByAThenB "a").1 = ⟨200, ""⟩ ∧
    postLikedByAThenB.likes = [{ user := "b" }, { user := "a" }] ∧
    (unlikeHandler postLikedByAThenB "a").2.likes = [{ user := "a" }] := by
  decide

/-- C3: the like handler rejects a duplicate like with 400
`"Post already liked"` and leaves the post unchanged; on a post not yet
liked by the requester it prepends exactly one like entry for that user;
consequently any sequence of like requests by the same user leaves at
most one like entry for that user. -/
theorem like_at_most_one_entry_per_user (post : Post) (uid : String) :
    (0 < countLikes post uid →
        likeHandler post uid = (⟨400, "Post already liked"⟩, post)) ∧
    (countLikes post uid = 0 →
        likeHandler post uid = (⟨200, ""⟩, { post with likes := ⟨uid⟩ :: post.likes }) ∧
        countLikes (likeHandler post uid).2 uid = 1) ∧
    (countLikes post uid ≤ 1 → ∀ n, countLikes (likeSeq post uid n) uid ≤ 1) := by
  refine ⟨?_, ?_, ?_⟩
  · intro h
    have h' : (post.likes.filter (fun like => like.user == uid)).length > 0 := h
    simp only [likeHandler, if_pos h']
  · intro h
    have h' : ¬ ((post.likes.filter (fun like => like.user == uid)).length > 0) := by
      have : (post.likes.filter (fun like => like.user == uid)).length = 0 := h
      omega
    constructor
    · simp only [likeHandler, if_neg h']
    · rw [countLikes_likeHandler, h]
      decide
  · intro h n
    induction n with
    | zero => exact h
    | succ n ih =>
      rw [likeSeq, countLikes_likeHandler]
      exact Nat.max_le.mpr ⟨Nat.le_refl 1, ih⟩

/-- Witness for C3 at a concrete post already liked by `b` only: five
consecutive like requests by `a` leave at most one like entry for `a`. -/
theorem like_at_most_one_entry_per_user_witness :
    countLikes (likeSeq postLikedByAThenB "c" 5) "c" ≤ 1 :=
  (like_at_most_one_entry_per_user postLikedByAThenB "c").2.2 (by decide) 5

/-- C9: on `GET api/profile/me`, whatever the lookup outcome, the handler
never produces the 500 `"Server Error"` response: a successful lookup
answers 400 or returns the profile, and a thrown lookup lands in a catch
block that reads the unbound identifier `err` (the caught value is bound
to `error`), so the block itself throws before the response statement. -/
theorem me_handler_never_sends_500 (e : String) (prof : ProfileDoc) :
    meCatchBlock e = none ∧
    getMeHandler (.error e) = .threw ∧
    getMeHandler (.ok none) = .sent ⟨400, "There is no profile for this user"⟩ ∧
    getMeHandler (.ok (some prof)) = .okJson prof := by
  exact ⟨rfl, rfl, rfl, rfl⟩

/-- C10: a like or unlike request whose id matches no post fetches
`null`, the dereference `post.likes` throws, and the catch answers 500
`"Server Error"` (a status distinct from 404). -/
theorem like_unlike_missing_post_answers_500 (uid : String) :
    likeRoute none uid = (⟨500, "Server Error"⟩, none) ∧
    unlikeRoute none uid = (⟨500, "Server Error"⟩, none) := by
  exact ⟨rfl, rfl⟩

/-- C2 counterexample: deleting experience id `"zz"` from a profile whose
only experience entry has id `"e1"` computes removal index `-1`, and
`splice(-1, 1)` removes the last element — the list goes from one entry
to empty, so the removal is not a no-op. -/
theorem delete_experience_missing_id_not_noop :
    profileOneExp.experience = [expEntry "e1"] ∧
    decide ("zz" ∈ profileOneExp.experience.map (fun b => b.id)) = false ∧
    (deleteExperienceHandler profileOneExp "zz").2.experience = [] ∧
    decide ((deleteExperienceHandler profileOneExp "zz").2.experience
        = profileOneExp.experience) = false := by
  decide

/-- C2 amended: when the sub-document identifier is absent the computed
index is `-1` and `splice(-1, 1)` removes the *last* entry of the list
(leaving it unchanged only when it is empty, since `dropLast [] = []`);
when the identifier is present, the entry at its first position is
removed.  Stated for both the experience and the education endpoint. -/
theorem delete_exp_edu_positional_removal (p : ProfileDoc) (xid : String) :
    (xid ∉ p.experience.map (fun b => b.id) →
        jsArrIndexOf (p.experience.map (fun b => b.id)) xid = -1 ∧
        (deleteExperienceHandler p xid).2.experience = p.experience.dropLast) ∧
    (xid ∈ p.experience.map (fun b => b.id) →
        ∃ pre c suf, p.experience = pre ++ c :: suf ∧ c.id = xid ∧
          (∀ b ∈ pre, b.id ≠ xid) ∧
          (deleteExperienceHandler p xid).2.experience = pre ++ suf) ∧
    (xid ∉ p.education.map (fun b => b.id) →
        jsArrIndexOf (p.education.map (fun b => b.id)) xid = -1 ∧
        (deleteEducationHandler p xid).2.education = p.education.dropLast) ∧
    (xid ∈ p.education.map (fun b => b.id) →
        ∃ pre c suf, p.education = pre ++ c :: suf ∧ c.id = xid ∧
          (∀ b ∈ pre, b.id ≠ xid) ∧
          (deleteEducationHandler p xid).2.education = pre ++ suf) := by
  refine ⟨?_, ?_, ?_, ?_⟩
  · intro h
    have hio : jsArrIndexOf (p.experience.map (fun b => b.id)) xid = -1 :=
      jsArrIndexOf_eq_neg_one h
    exact ⟨hio, by simp [deleteExperienceHandler, hio, jsSplice1_neg_one]⟩
  · intro h
    have hsome := arrFindPos_map_isSome (fun b : Experience => b.id) h
    obtain ⟨n, hn⟩ := Option.isSome_iff_exists.mp hsome
    obtain ⟨pre, c, suf, hl, hlen, hc, hpre⟩ := arrFindPos_map_split _ _ hn
    refine ⟨pre, c, suf, hl, hc, hpre, ?_⟩
    have hio := jsArrIndexOf_eq_of_pos hn
    have hspl : jsSplice1 p.experience ((n : Nat) : Int) = pre ++ suf := by
      rw [hl, ← hlen]
      exact jsSplice1_append pre suf c
    simp [deleteExperienceHandler, hio, hspl]
  · intro h
    have hio : jsArrIndexOf (p.education.map (fun b => b.id)) xid = -1 :=
      jsArrIndexOf_eq_neg_one h
    exact ⟨hio, by simp [deleteEducationHandler, hio, jsSplice1_neg_one]⟩
  · intro h
    have hsome := arrFindPos_map_isSome (fun b : Education => b.id) h
    obtain ⟨n, hn⟩ := Option.isSome_iff_exists.mp hsome
    obtain ⟨pre, c, suf, hl, hlen, hc, hpre⟩ := arrFindPos_map_split _ _ hn
    refine ⟨pre, c, suf, hl, hc, hpre, ?_⟩
    have hio := jsArrIndexOf_eq_of_pos hn
    have hspl : jsSplice1 p.education ((n : Nat) : Int) = pre ++ suf := by
      rw [hl, ← hlen]
      exact jsSplice1_append pre suf c
    simp [deleteEducationHandler, hio, hspl]

/-- Witness for the amended C2: deleting id `"e2"` from the profile whose
experience list is `[e1, e2]` removes the entry at its position. -/
theorem delete_exp_edu_positional_removal_witness :
    ∃ pre c suf, profileTwoExpEdu.experience = pre ++ c :: suf ∧ c.id = "e2" ∧
      (∀ b ∈ pre, b.id ≠ "e2") ∧
      (deleteExperienceHandler profileTwoExpEdu "e2").2.experience = pre ++ suf :=
  (delete_exp_edu_positional_removal profileTwoExpEdu "e2").2.1 (by decide)

/-- C4 counterexample: on a stored profile with `bio` and a `youtube`
social link set, submitting a body containing only `status` and `skills`
keeps `bio` but resets the social sub-document: `profileFields.social`
is always created (here empty) and `$set` replaces the stored `social`
wholesale, wiping the previously set link. -/
theorem profile_update_wipes_social :
    profileWithBioAndYoutube.social.youtube = some "https://youtube.example/c" ∧
    (updateProfileHandler profileWithBioAndYoutube "u1" bodyStatusSkillsOnly).bio
      = some "my bio" ∧
    (updateProfileHandler profileWithBioAndYoutube "u1" bodyStatusSkillsOnly).social.youtube
      = none ∧
    decide ((updateProfileHandler profileWithBioAndYoutube "u1" bodyStatusSkillsOnly).social
        = profileWithBioAndYoutube.social) = false := by
  decide

/-- C4 amended: on update, each absent (falsy) non-social scalar field
keeps its stored value and each present one is overwritten; `skills` is
split on commas and trimmed when present; but the `social` sub-document
is always replaced by the object built from the present social fields
alone — independently of the stored profile — so previously set social
links are cleared when their fields are absent from the body.
Experience and education are untouched. -/
theorem profile_update_merges_only_nonsocial (p : ProfileDoc) (uid : String) (b : ProfileBody) :
    (updateProfileHandler p uid b).company
      = (if jsTruthy b.company then b.company else p.company) ∧
    (updateProfileHandler p uid b).website
      = (if jsTruthy b.website then b.website else p.website) ∧
    (updateProfileHandler p uid b).location
      = (if jsTruthy b.location then b.location else p.location) ∧
    (updateProfileHandler p uid b).bio
      = (if jsTruthy b.bio then b.bio else p.bio) ∧
    (updateProfileHandler p uid b).status
      = (if jsTruthy b.status then b.status else p.status) ∧
    (updateProfileHandler p uid b).githubusername
      = (if jsTruthy b.githubusername then b.githubusername else p.githubusername) ∧
    (updateProfileHandler p uid b).skills
      = (match b.skills with
         | none => p.skills
         | some s =>
           if s == "" then p.skills
           else some ((s.splitOn ",").map (fun sk => sk.trim))) ∧
    (updateProfileHandler p uid b).social
      = { youtube := fieldIfTruthy b.youtube, twitter := fieldIfTruthy b.twitter,
          facebook := fieldIfTruthy b.facebook, linkedin := fieldIfTruthy b.linkedin,
          instagram := fieldIfTruthy b.instagram } ∧
    (∀ q : ProfileDoc,
        (updateProfileHandler q uid b).social = (updateProfileHandler p uid b).social) ∧
    (updateProfileHandler p uid b).experience = p.experience ∧
    (updateProfileHandler p uid b).education = p.education := by
  refine ⟨?_, ?_, ?_, ?_, ?_, ?_, ?_, ?_, ?_, ?_, ?_⟩
  · simp [updateProfileHandler, applySet, buildProfileFields, fieldIfTruthy_or]
  · simp [updateProfileHandler, applySet, buildProfileFields, fieldIfTruthy_or]
  · simp [updateProfileHandler, applySet, buildProfileFields, fieldIfTruthy_or]
  · simp [updateProfileHandler, applySet, buildProfileFields, fieldIfTruthy_or]
  · simp [updateProfileHandler, applySet, buildProfileFields, fieldIfTruthy_or]
  · simp [updateProfileHandler, applySet, buildProfileFields, fieldIfTruthy_or]
  · cases hs : b.skills with
    | none => simp [updateProfileHandler, applySet, buildProfileFields, hs]
    | some s =>
      by_cases h : s == "" <;>
        simp [updateProfileHandler, applySet, buildProfileFields, hs, h]
  · simp [updateProfileHandler, applySet, buildProfileFields]
  · intro q
    simp [updateProfileHandler, applySet, buildProfileFields]
  · simp [updateProfileHandler, applySet]
  · simp [updateProfileHandler, applySet]

/-- C5: comment deletion answers 404 when no comment carries the given
id, 401 (post unchanged) when the found comment's author is not the
requester, and otherwise removes the comment at the position of the
*first* comment whose `user` field matches the requester — which is why,
when the requester has several comments on the post, the removed comment
can differ from the one identified by `comment_id`. -/
theorem comment_delete_removes_first_own_comment (post : Post) (uid cid : String) :
    (post.comments.find? (fun c => c.id == cid) = none →
        deleteCommentHandler post uid cid = (⟨404, "Comment doesn't exists"⟩, post)) ∧
    (∀ c, post.comments.find? (fun c2 => c2.id == cid) = some c → c.user ≠ uid →
        deleteCommentHandler post uid cid = (⟨401, "User not authorized"⟩, post)) ∧
    (∀ c, post.comments.find? (fun c2 => c2.id == cid) = some c → c.user = uid →
        ∃ pre c2 suf, post.comments = pre ++ c2 :: suf ∧ c2.user = uid ∧
          (∀ b ∈ pre, b.user ≠ uid) ∧
          deleteCommentHandler post uid cid
            = (⟨200, ""⟩, { post with comments := pre ++ suf })) := by
  refine ⟨?_, ?_, ?_⟩
  · intro h
    simp [deleteCommentHandler, h]
  · intro c hc hne
    have hb : (c.user == uid) = false := by simpa using hne
    simp [deleteCommentHandler, hc, hb]
  · intro c hc hequ
    have hmem : c ∈ post.comments := List.mem_of_find?_eq_some hc
    have hmap : uid ∈ post.comments.map (fun c2 => c2.user) :=
      List.mem_map.mpr ⟨c, hmem, hequ⟩
    have hsome := arrFindPos_map_isSome (fun c2 : Comment => c2.user) hmap
    obtain ⟨n, hn⟩ := Option.isSome_iff_exists.mp hsome
    obtain ⟨pre, c2, suf, hl, hlen, hc2, hpre⟩ := arrFindPos_map_split _ _ hn
    refine ⟨pre, c2, suf, hl, hc2, hpre, ?_⟩
    have hio := jsArrIndexOf_eq_of_pos hn
    have hspl : jsSplice1 post.comments ((n : Nat) : Int) = pre ++ suf := by
      rw [hl, ← hlen]
      exact jsSplice1_append pre suf c2
    simp [deleteCommentHandler, hc, hequ, hio, hspl]

/-- Witness for C5: user `u` has comments `a1` and `a2` (in that stored
order); the delete request naming `a2` removes the comment at the
position of `u`'s first comment. -/
theorem comment_delete_removes_first_own_comment_witness :
    ∃ pre c2 suf, postTwoCommentsByU.comments = pre ++ c2 :: suf ∧ c2.user = "u" ∧
      (∀ b ∈ pre, b.user ≠ "u") ∧
      deleteCommentHandler postTwoCommentsByU "u" "a2"
        = (⟨200, ""⟩, { postTwoCommentsByU with comments := pre ++ suf }) :=
  (comment_delete_removes_first_own_comment postTwoCommentsByU "u" "a2").2.2
    { id := "a2", text := "second", name := "U", avatar := "gu", user := "u" }
    (by decide) rfl

/-- C6: registration with an email already held by some stored user
answers 400 `"User already exists"` and leaves the user collection
unchanged — no user object is built or saved in that branch — while an
unregistered email appends exactly one new user (gravatar-derived
avatar, hashed password) and answers with the signed token. -/
theorem register_duplicate_email_rejected (grav hashPw signJwt : String → String)
    (freshId : String) (db : List UserDoc) (name email password : String) :
    ((∃ u ∈ db, u.email = email) →
        registerHandler grav hashPw signJwt freshId db name email password
          = (.badRequest "User already exists", db)) ∧
    ((∀ u ∈ db, u.email ≠ email) →
        registerHandler grav hashPw signJwt freshId db name email password
          = (.token (signJwt freshId),
             db ++ [{ id := freshId, name := name, email := email,
                      password := hashPw password, avatar := grav email }])) := by
  constructor
  · rintro ⟨u, hu, he⟩
    have hsome : (db.find? (fun v => v.email == email)).isSome :=
      List.find?_isSome.mpr ⟨u, hu, by simp [he]⟩
    obtain ⟨v, hv⟩ := Option.isSome_iff_exists.mp hsome
    simp [registerHandler, hv]
  · intro h
    have hnone : db.find? (fun v => v.email == email) = none :=
      List.find?_eq_none.mpr (fun u hu => by simp [h u hu])
    simp [registerHandler, hnone]

/-- Witness for C6: re-registering `a@x.com` against a collection already
holding that email is rejected with the collection unchanged. -/
theorem register_duplicate_email_rejected_witness :
    registerHandler id id id "u2" [userAX] "A" "a@x.com" "secret1"
      = (.badRequest "User already exists", [userAX]) :=
  (register_duplicate_email_rejected id id id "u2" [userAX] "A" "a@x.com" "secret1").1
    ⟨userAX, by decide, by decide⟩

/-- C7: deleting a post answers 404 when the id is malformed (fails the
24-hex-digit test) or matches no stored post; when the post exists but
its author differs from the requester it answers 401 with the collection
unchanged (the post still stored); only when the requester is the author
is the post removed from the collection. -/
theorem delete_post_only_by_author (db : List Post) (pid uid : String) :
    (objectIdWellFormed pid = false →
        deletePostHandler db pid uid = (⟨404, "Post not found"⟩, db)) ∧
    (objectIdWellFormed pid = true → db.find? (fun q => q.id == pid) = none →
        deletePostHandler db pid uid = (⟨404, "Post not found"⟩, db)) ∧
    (∀ post, objectIdWellFormed pid = true →
        db.find? (fun q => q.id == pid) = some post → post.user ≠ uid →
        deletePostHandler db pid uid = (⟨401, "user not authorized"⟩, db) ∧ post ∈ db) ∧
    (∀ post, objectIdWellFormed pid = true →
        db.find? (fun q => q.id == pid) = some post → post.user = uid →
        ∃ pre suf, db = pre ++ post :: suf ∧ (∀ q ∈ pre, q.id ≠ pid) ∧
          deletePostHandler db pid uid = (⟨200, "Post Removed"⟩, pre ++ suf)) := by
  refine ⟨?_, ?_, ?_, ?_⟩
  · intro h
    simp [deletePostHandler, h]
  · intro hw h
    simp [deletePostHandler, hw, h]
  · intro post hw hf hne
    have hb : (post.user == uid) = false := by simpa using hne
    exact ⟨by simp [deletePostHandler, hw, hf, hb], List.mem_of_find?_eq_some hf⟩
  · intro post hw hf hequ
    obtain ⟨hp, pre, suf, hdb, hpre⟩ := List.find?_eq_some.mp hf
    have hpre2 : ∀ q ∈ pre, q.id ≠ pid := by
      intro q hq
      have := hpre q hq
      simpa using this
    refine ⟨pre, suf, hdb, hpre2, ?_⟩
    have herase : db.eraseP (fun q => q.id == pid) = pre ++ suf := by
      rw [hdb, List.eraseP_append_right _ (fun b hb => by simpa using hpre2 b hb),
        List.eraseP_cons_of_pos (p := fun q => q.id == pid) (l := suf) hp]
    simp [deletePostHandler, hw, hf, hequ, herase]

/-- Witness for C7: a non-author request against the stored post is
refused with 401 and the collection keeps the post. -/
theorem delete_post_only_by_author_witness :
    deletePostHandler [postByAuthor] hexId24 "intruder"
      = (⟨401, "user not authorized"⟩, [postByAuthor]) ∧ postByAuthor ∈ [postByAuthor] :=
  (delete_post_only_by_author [postByAuthor] hexId24 "intruder").2.2.1
    postByAuthor (by decide) (by decide) (by decide)

/-- C8: the upstream URI built by the github route fixes pagination and
sort order in its query (`per_page=5&sort=created:asc`); a callback
invocation whose response has a non-200 status is answered with 400
`"No Github profile found"`; a network-level failure (error set, no
response object) only logs the error — reading `response.statusCode`
then throws, so no error response is sent in that branch. -/
theorem github_route_behavior (username clientId clientSecret : String) (r : NetResult) :
    githubUri username clientId clientSecret
      = ("https://api.github.com/users/" ++ username ++ "/repos?")
          ++ "per_page=5&sort=created:asc"
          ++ ("&client_id=" ++ clientId ++ "&client_secret=" ++ clientSecret) ∧
    (∀ status body, r.response = some (status, body) → status ≠ 200 →
        (githubCallback r).1 = .sent 400 "No Github profile found") ∧
    (∀ e, r.error = some e → r.response = none →
        githubCallback r = (.threw, [e])) := by
  refine ⟨?_, ?_, ?_⟩
  · have hlit : ("/repos?per_page=5&sort=created:asc&client_id=" : String)
        = "/repos?" ++ "per_page=5&sort=created:asc" ++ "&client_id=" := rfl
    rw [githubUri, hlit]
    simp only [String.append_assoc]
  · intro status body hresp hne
    simp [githubCallback, hresp, hne]
  · intro e he hnone
    simp [githubCallback, he, hnone]

/-- Witness for C8: a refused connection invokes the callback with an
error and no response; the route logs the error and sends nothing. -/
theorem github_route_behavior_witness :
    githubCallback ⟨some "ECONNREFUSED", none⟩ = (.threw, ["ECONNREFUSED"]) :=
  (github_route_behavior "octocat" "cid" "sec" ⟨some "ECONNREFUSED", none⟩).2.2
    "ECONNREFUSED" rfl rfl

end DevConnector
